import Mathlib

/-!
Verification of the TURBINE3-Q1-2026 Solana starter scripts.

A shallow embedding of the repository's TypeScript scripts.  Each script is a
straight-line program; we embed it as a pure Lean function from its inputs
(operator-edited constants, remote-node responses, run randomness) to the list
of observable effects it performs plus its final state.  BigInt arithmetic on
non-negative quantities is modelled with `Nat` (JavaScript BigInt division
truncates toward zero, which agrees with `Nat` division on non-negative
operands).

Public keys are modelled as abstract `Nat` tokens: the scripts never inspect
key bytes, they only pass keys to SDK calls, so any type with decidable
equality is a faithful carrier.
-/

namespace Turbine

/-- Public keys are opaque tokens to every script; model them as `Nat`. -/
abbrev Pubkey := Nat

/-- Model of the Token-2022 program id constant (`TOKEN_2022_PROGRAM_ID`). -/
def TOKEN_2022_PROGRAM_ID : Pubkey := 2022

/-- Model of the associated-token program id (`ASSOCIATED_TOKEN_PROGRAM_ID`). -/
def ASSOCIATED_TOKEN_PROGRAM_ID : Pubkey := 8

/-! ## Fee-aware transfer (`spl_transfer.ts`): constants and fee computation

From `src/solana-starter/ts/cluster1/nft_metadata.ts` (second document),
lines 213-216 and 266-268.
-/

/-- Source: `const DECIMALS = 9;` -/
def DECIMALS : Nat := 9

/-- Source: `const TRANSFER_FEE_BASIS_POINTS = 100; // 1% fee` -/
def TRANSFER_FEE_BASIS_POINTS : Nat := 100

/-- Source: `const MAX_FEE = BigInt(1_000_000_000);` -/
def MAX_FEE : Nat := 1000000000

/-- Source: `const TRANSFER_AMOUNT = 100; // tokens to transfer` -/
def TRANSFER_AMOUNT : Nat := 100

/-- Source: `const transferAmount = BigInt(TRANSFER_AMOUNT) * BigInt(10 ** DECIMALS);` -/
def transferAmount : Nat := TRANSFER_AMOUNT * 10 ^ DECIMALS

/-- Source: `const calculatedFee = (transferAmount * BigInt(TRANSFER_FEE_BASIS_POINTS)) / BigInt(10000);`
as a function of the scaled amount (BigInt division truncates; on `Nat` this is
`Nat` division). -/
def calculatedFee (amount : Nat) : Nat :=
  amount * TRANSFER_FEE_BASIS_POINTS / 10000

/-- Source: `const fee = calculatedFee > MAX_FEE ? MAX_FEE : calculatedFee;` -/
def fee (amount : Nat) : Nat :=
  if calculatedFee amount > MAX_FEE then MAX_FEE else calculatedFee amount

/-- C1: For every scaled amount `A` the script's declared fee is
`min (floor (A * TRANSFER_FEE_BASIS_POINTS / 10000)) MAX_FEE` in exact integer
arithmetic, and at `A = 100 * 10^9` (the script's own `transferAmount`) the fee
is exactly `10^9`, the cap boundary. -/
theorem fee_eq_min_and_cap_boundary :
    (∀ A : Nat, fee A = min (A * TRANSFER_FEE_BASIS_POINTS / 10000) MAX_FEE) ∧
      transferAmount = 100 * 10 ^ 9 ∧ fee transferAmount = 10 ^ 9 := by
  refine ⟨fun A => ?_, by decide, by decide⟩
  unfold fee calculatedFee
  rcases le_or_lt (A * TRANSFER_FEE_BASIS_POINTS / 10000) MAX_FEE with h | h
  · rw [if_neg (by omega), min_eq_left h]
  · rw [if_pos h, min_eq_right (le_of_lt h)]

/-- C9: The fee is bounded: for every non-negative amount `A`,
`fee A ≤ MAX_FEE`, and since the basis-point rate 100 is at most 10000,
`fee A ≤ A` — the fee never exceeds the amount transferred. -/
theorem fee_bounded (A : Nat) : fee A ≤ MAX_FEE ∧ fee A ≤ A := by
  unfold fee calculatedFee
  constructor
  · split
    · exact le_refl MAX_FEE
    · omega
  · have hdiv : A * TRANSFER_FEE_BASIS_POINTS / 10000 ≤ A := by
      calc A * TRANSFER_FEE_BASIS_POINTS / 10000
          ≤ A * 10000 / 10000 := by
            apply Nat.div_le_div_right
            exact Nat.mul_le_mul_left A (by norm_num [TRANSFER_FEE_BASIS_POINTS])
        _ = A := Nat.mul_div_cancel A (by norm_num)
    split
    · omega
    · exact hdiv

/-! ## Mint initializer with transfer-fee extension (`spl_init.ts`)

From `src/unnamed/part_002`, lines 28-30 and 43-75: the script builds one
transaction of three instructions and submits it.
-/

/-- The instructions the initializer can add to its transaction, with the
arguments the script passes (from `src/unnamed/part_002`, lines 49-75). -/
inductive InitInstruction where
  | createAccount (fromPubkey newAccountPubkey : Pubkey)
      (space lamports : Nat) (programId : Pubkey)
  | initializeTransferFeeConfig (mint feeConfigAuthority withdrawWithheldAuthority : Pubkey)
      (basisPoints maxFee : Nat) (programId : Pubkey)
  | initializeMint (mint : Pubkey) (decimals : Nat) (mintAuthority : Pubkey)
      (freezeAuthority : Option Pubkey) (programId : Pubkey)
  deriving DecidableEq

/-- Is this instruction the transfer-fee-config initialization? -/
def InitInstruction.isFeeConfigInit : InitInstruction → Bool
  | .initializeTransferFeeConfig _ _ _ _ _ _ => true
  | _ => false

/-- Is this instruction the mint initialization? -/
def InitInstruction.isMintInit : InitInstruction → Bool
  | .initializeMint _ _ _ _ _ => true
  | _ => false

/-- The transaction built by `spl_init.ts` (`new Transaction().add(...)` with the
three instructions in the written order), as a function of the payer key, the
freshly generated mint key, and the two remote-node-supplied numbers `mintLen`
and `mintLamports`. -/
def splInitTransaction (payer mint : Pubkey) (mintLen mintLamports : Nat) :
    List InitInstruction :=
  [ .createAccount payer mint mintLen mintLamports TOKEN_2022_PROGRAM_ID,
    .initializeTransferFeeConfig mint payer payer
      TRANSFER_FEE_BASIS_POINTS MAX_FEE TOKEN_2022_PROGRAM_ID,
    .initializeMint mint DECIMALS payer none TOKEN_2022_PROGRAM_ID ]

/-- C2: The initializer's transaction contains exactly three instructions —
account creation, then transfer-fee-config initialization, then mint
initialization — and every fee-config-initialization instruction precedes every
mint-initialization instruction in it. -/
theorem splInitTransaction_ordering (payer mint : Pubkey) (mintLen mintLamports : Nat) :
    (splInitTransaction payer mint mintLen mintLamports).length = 3 ∧
    (splInitTransaction payer mint mintLen mintLamports).get? 0 =
      some (.createAccount payer mint mintLen mintLamports TOKEN_2022_PROGRAM_ID) ∧
    (splInitTransaction payer mint mintLen mintLamports).get? 1 =
      some (.initializeTransferFeeConfig mint payer payer
        TRANSFER_FEE_BASIS_POINTS MAX_FEE TOKEN_2022_PROGRAM_ID) ∧
    (splInitTransaction payer mint mintLen mintLamports).get? 2 =
      some (.initializeMint mint DECIMALS payer none TOKEN_2022_PROGRAM_ID) ∧
    ∀ i j : Fin (splInitTransaction payer mint mintLen mintLamports).length,
      ((splInitTransaction payer mint mintLen mintLamports).get i).isFeeConfigInit →
      ((splInitTransaction payer mint mintLen mintLamports).get j).isMintInit →
      (i : Nat) < (j : Nat) := by
  refine ⟨rfl, rfl, rfl, rfl, ?_⟩
  intro i j hi hj
  fin_cases i <;> fin_cases j <;>
    simp_all [splInitTransaction, InitInstruction.isFeeConfigInit,
      InitInstruction.isMintInit]

/-- Witness for C2: the ordering invariant instantiated on concrete keys and
sizes. -/
theorem splInitTransaction_ordering_witness :
    (splInitTransaction 5 7 278 2000000).length = 3 ∧
      ∀ i j : Fin (splInitTransaction 5 7 278 2000000).length,
        ((splInitTransaction 5 7 278 2000000).get i).isFeeConfigInit →
        ((splInitTransaction 5 7 278 2000000).get j).isMintInit →
        (i : Nat) < (j : Nat) := by
  have h := splInitTransaction_ordering 5 7 278 2000000
  exact ⟨h.1, h.2.2.2.2⟩

/-! ## Balance funder (`airdrop.ts`)

From `src/unnamed/part_001`, lines 98-141 (second document): query the
balance; if it is at least `0.5 * LAMPORTS_PER_SOL`, log and return; otherwise
request a 2-SOL airdrop and wait for confirmation.
-/

/-- Constant `LAMPORTS_PER_SOL` from the web3 SDK: 10^9 lamports per SOL. -/
def LAMPORTS_PER_SOL : Nat := 1000000000

/-- The network calls the funder can issue, in the order the script awaits
them.  `requestAirdrop` is the only state-mutating call; the others are reads. -/
inductive FunderCall where
  | getBalance (key : Pubkey)
  | requestAirdrop (key : Pubkey) (lamports : Nat)
  | getLatestBlockhash
  | confirmTransaction
  deriving DecidableEq

/-- A call mutates remote state exactly when it is an airdrop request; balance
queries, blockhash fetches and confirmation waits are reads. -/
def FunderCall.isMutation : FunderCall → Bool
  | .requestAirdrop _ _ => true
  | _ => false

/-- The funder's network trace as a function of the wallet key and the balance
the node reports.  `balance >= 0.5 * LAMPORTS_PER_SOL` in the script is an
exact comparison (`0.5 * 10^9 = 500000000` is exact in JS numbers), modelled as
`2 * balance ≥ LAMPORTS_PER_SOL`. -/
def airdropRun (pk : Pubkey) (balance : Nat) : List FunderCall :=
  if 2 * balance ≥ LAMPORTS_PER_SOL then
    [FunderCall.getBalance pk]
  else
    [FunderCall.getBalance pk,
     FunderCall.requestAirdrop pk (2 * LAMPORTS_PER_SOL),
     FunderCall.getLatestBlockhash,
     FunderCall.confirmTransaction,
     FunderCall.getBalance pk]

/-- C3: Whenever the reported balance is at least 0.5 SOL, the funder's
whole network trace is the single balance read: it issues no airdrop request
and no other state-mutating call, so a repeated run against a funded key
performs zero network mutations. -/
theorem airdropRun_idempotent (pk : Pubkey) (balance : Nat)
    (h : 2 * balance ≥ LAMPORTS_PER_SOL) :
    airdropRun pk balance = [FunderCall.getBalance pk] ∧
      ∀ c ∈ airdropRun pk balance, c.isMutation = false := by
  have htr : airdropRun pk balance = [FunderCall.getBalance pk] := by
    unfold airdropRun
    exact if_pos h
  refine ⟨htr, ?_⟩
  intro c hc
  rw [htr] at hc
  simp only [List.mem_singleton] at hc
  subst hc
  rfl

/-- Witness for C3: a funded key (balance exactly 0.5 SOL) produces a
mutation-free trace. -/
theorem airdropRun_idempotent_witness :
    2 * 500000000 ≥ LAMPORTS_PER_SOL ∧
      (airdropRun 3 500000000 = [FunderCall.getBalance 3] ∧
        ∀ c ∈ airdropRun 3 500000000, c.isMutation = false) :=
  ⟨by decide, airdropRun_idempotent 3 500000000 (by decide)⟩

/-! ## Metadata publisher (`spl_metadata.ts`)

From `src/unnamed/part_000`.  Control flow of the main body:
1. validate the mint-address literal (lines 137-141): placeholder or too short
   → `process.exit(1)`;
2. `umi.rpc.getAccount(mint)` — a network read — inside an inner try/catch
   (lines 147-159): a reported missing account → `process.exit(1)`; a thrown
   query error → proceed anyway;
3. if `UPLOAD_METADATA_JSON` upload the JSON (network write, lines 164-178),
   else validate the configured URI (lines 179-187): empty or shorter than 10
   → `process.exit(1)`;
4. build and send the create-metadata transaction (lines 245-253);
5. the outer catch (lines 274-296) string-matches the error message on
   "ProgrammableNonFungible" and prints either the NFT-mismatch explanation or
   the generic troubleshooting list; nothing is retried.
-/

/-- Does the first character sequence start the second? -/
def startsWithSeq : List Char → List Char → Bool
  | [], _ => true
  | _ :: _, [] => false
  | a :: as, b :: bs => a == b && startsWithSeq as bs

/-- Does the first character sequence occur inside the second? -/
def containsSeq (marker : List Char) : List Char → Bool
  | [] => startsWithSeq marker []
  | b :: bs => startsWithSeq marker (b :: bs) || containsSeq marker bs

/-- JS `String.prototype.includes`: `marker` occurs in `s` as a contiguous
substring. -/
def jsIncludes (s marker : String) : Bool :=
  containsSeq marker.data s.data

/-- The two shapes of error report the publisher's catch block can print. -/
inductive MetaErrorReport where
  | nftMismatch
  | generic
  deriving DecidableEq

/-- Observable events of a publisher run: process exit, network calls, and the
final console report. -/
inductive MetaEvent where
  | exitFailure
  | rpcGetAccount (mint : String)
  | uploadJson
  | sendTransaction
  | reportError (r : MetaErrorReport)
  | reportSuccess
  deriving DecidableEq

/-- Network calls (reads and writes) among the events. -/
def MetaEvent.isNetworkCall : MetaEvent → Bool
  | .rpcGetAccount _ => true
  | .uploadJson => true
  | .sendTransaction => true
  | _ => false

/-- State-mutating network calls: the Arweave upload and the transaction
submission.  The `getAccount` query is a read. -/
def MetaEvent.isNetworkMutation : MetaEvent → Bool
  | .uploadJson => true
  | .sendTransaction => true
  | _ => false

/-- Is this event the transaction submission? -/
def MetaEvent.isSend : MetaEvent → Bool
  | .sendTransaction => true
  | _ => false

/-- The operator-edited constants of `spl_metadata.ts`. -/
structure MetaConfig where
  mintAddress : String
  uploadMetadataJson : Bool
  uri : String
  deriving DecidableEq

/-- Outcome of the `umi.rpc.getAccount` call: the query threw, or reported the
account present, or reported it absent. -/
inductive GetAccountOutcome where
  | threw
  | found
  | missing
  deriving DecidableEq

/-- Outcome of `tx.sendAndConfirm`: success, or a thrown error carrying an
optional message string. -/
inductive SendOutcome where
  | ok
  | err (msg : Option String)
  deriving DecidableEq

/-- The remote responses a publisher run consumes.  The upload, when taken, is
modelled as succeeding; the claims under study concern the transaction
failure path. -/
structure MetaOracle where
  getAccount : GetAccountOutcome
  send : SendOutcome
  deriving DecidableEq

/-- The catch block's classification (lines 278-295): the NFT-mismatch
explanation exactly when the message exists and contains
"ProgrammableNonFungible", the generic troubleshooting list otherwise. -/
def classifyMetadataError (msg : Option String) : MetaErrorReport :=
  match msg with
  | some m =>
      if jsIncludes m "ProgrammableNonFungible" then MetaErrorReport.nftMismatch
      else MetaErrorReport.generic
  | none => MetaErrorReport.generic

/-- The send step and the outer catch: the transaction is submitted once; on a
thrown error the catch prints one classified report and nothing more. -/
def splMetadataSend (o : MetaOracle) (pre : List MetaEvent) : List MetaEvent :=
  match o.send with
  | .ok => pre ++ [MetaEvent.sendTransaction, MetaEvent.reportSuccess]
  | .err m =>
      pre ++ [MetaEvent.sendTransaction,
              MetaEvent.reportError (classifyMetadataError m)]

/-- The publisher's event trace, following the script's control flow. -/
def splMetadataRun (cfg : MetaConfig) (o : MetaOracle) : List MetaEvent :=
  if jsIncludes cfg.mintAddress "<PASTE" || cfg.mintAddress.length < 32 then
    [MetaEvent.exitFailure]
  else
    let pre := [MetaEvent.rpcGetAccount cfg.mintAddress]
    match o.getAccount with
    | .missing => pre ++ [MetaEvent.exitFailure]
    | _ =>
      if cfg.uploadMetadataJson then
        splMetadataSend o (pre ++ [MetaEvent.uploadJson])
      else if cfg.uri == "" || cfg.uri.length < 10 then
        pre ++ [MetaEvent.exitFailure]
      else
        splMetadataSend o pre

/-- A trace fails fast before any network call when an exit event appears
before the first network call in it. -/
def failsFastBeforeNetwork (tr : List MetaEvent) : Bool :=
  (tr.takeWhile (fun e => !e.isNetworkCall)).contains MetaEvent.exitFailure

/-- C4 counterexample: With upload disabled and an empty configured URI
(and the repository's mint-address literal), the run does exit with a
validation failure — but only after the `getAccount` network call, so the exit
does not precede every network call as the claim states. -/
theorem splMetadataRun_validation_after_network_call :
    splMetadataRun
        ⟨"5SY3Rna38Ay1SAQvswinezjdaeGv576LAfTv9Vo7dcft", false, ""⟩
        ⟨GetAccountOutcome.found, SendOutcome.ok⟩ =
      [MetaEvent.rpcGetAccount "5SY3Rna38Ay1SAQvswinezjdaeGv576LAfTv9Vo7dcft",
       MetaEvent.exitFailure] ∧
    failsFastBeforeNetwork
        (splMetadataRun
          ⟨"5SY3Rna38Ay1SAQvswinezjdaeGv576LAfTv9Vo7dcft", false, ""⟩
          ⟨GetAccountOutcome.found, SendOutcome.ok⟩) = false := by
  constructor <;> decide

/-- C4 amended: With upload disabled and an empty-or-short configured URI
(and a well-formed mint-address literal), the run exits with a validation
failure before any state-mutating network call — the whole trace is the
read-only mint-account query followed by the exit, with no upload and no
transaction submission. -/
theorem splMetadataRun_failFast_before_mutation (cfg : MetaConfig) (o : MetaOracle)
    (hmint : (jsIncludes cfg.mintAddress "<PASTE" || cfg.mintAddress.length < 32) = false)
    (hupload : cfg.uploadMetadataJson = false)
    (huri : (cfg.uri == "" || cfg.uri.length < 10) = true) :
    splMetadataRun cfg o =
      [MetaEvent.rpcGetAccount cfg.mintAddress, MetaEvent.exitFailure] ∧
      ∀ e ∈ splMetadataRun cfg o, e.isNetworkMutation = false := by
  have htr : splMetadataRun cfg o =
      [MetaEvent.rpcGetAccount cfg.mintAddress, MetaEvent.exitFailure] := by
    unfold splMetadataRun
    rw [hmint]
    simp only [Bool.false_eq_true, if_false]
    cases o.getAccount <;> simp [hupload, huri]
  refine ⟨htr, ?_⟩
  intro e he
  rw [htr] at he
  simp only [List.mem_cons, List.not_mem_nil, or_false] at he
  rcases he with h | h <;> subst h <;> rfl

/-- Witness for the amended C4 at the repository's constants with upload
disabled and the URI cleared. -/
theorem splMetadataRun_failFast_before_mutation_witness :
    splMetadataRun
        ⟨"5SY3Rna38Ay1SAQvswinezjdaeGv576LAfTv9Vo7dcft", false, ""⟩
        ⟨GetAccountOutcome.threw, SendOutcome.ok⟩ =
      [MetaEvent.rpcGetAccount "5SY3Rna38Ay1SAQvswinezjdaeGv576LAfTv9Vo7dcft",
       MetaEvent.exitFailure] ∧
      ∀ e ∈ splMetadataRun
          ⟨"5SY3Rna38Ay1SAQvswinezjdaeGv576LAfTv9Vo7dcft", false, ""⟩
          ⟨GetAccountOutcome.threw, SendOutcome.ok⟩,
        e.isNetworkMutation = false :=
  splMetadataRun_failFast_before_mutation
    ⟨"5SY3Rna38Ay1SAQvswinezjdaeGv576LAfTv9Vo7dcft", false, ""⟩
    ⟨GetAccountOutcome.threw, SendOutcome.ok⟩
    (by decide) (by decide) (by decide)

/-- C7: On any run that reaches the transaction and whose send throws an
error with message `m`, the script submits the transaction exactly once (no
retry) and ends with exactly one report, classified as the catch block does:
the NFT-mismatch explanation exactly when the message exists and contains
"ProgrammableNonFungible", the generic troubleshooting list for every other
error (including a message-less one). -/
theorem splMetadataRun_error_classification (cfg : MetaConfig) (o : MetaOracle)
    (m : Option String)
    (hmint : (jsIncludes cfg.mintAddress "<PASTE" || cfg.mintAddress.length < 32) = false)
    (hacct : o.getAccount ≠ GetAccountOutcome.missing)
    (hpath : cfg.uploadMetadataJson = true ∨
      (cfg.uri == "" || cfg.uri.length < 10) = false)
    (hsend : o.send = SendOutcome.err m) :
    (splMetadataRun cfg o).getLast? =
      some (MetaEvent.reportError (classifyMetadataError m)) ∧
    (splMetadataRun cfg o).countP (fun e => e.isSend) = 1 ∧
    (∀ s, m = some s →
      (classifyMetadataError m = MetaErrorReport.nftMismatch ↔
        jsIncludes s "ProgrammableNonFungible" = true)) ∧
    (m = none → classifyMetadataError m = MetaErrorReport.generic) := by
  have hsendtr : ∀ pre, splMetadataSend o pre =
      pre ++ [MetaEvent.sendTransaction,
              MetaEvent.reportError (classifyMetadataError m)] := by
    intro pre
    unfold splMetadataSend
    rw [hsend]
  have htrace : splMetadataRun cfg o =
      [MetaEvent.rpcGetAccount cfg.mintAddress] ++
        (if cfg.uploadMetadataJson then [MetaEvent.uploadJson] else []) ++
        [MetaEvent.sendTransaction,
         MetaEvent.reportError (classifyMetadataError m)] := by
    unfold splMetadataRun
    rw [hmint]
    simp only [Bool.false_eq_true, if_false]
    cases hga : o.getAccount with
    | missing => exact absurd hga hacct
    | threw =>
        cases hb : cfg.uploadMetadataJson with
        | true => simp [hsendtr]
        | false =>
            rcases hpath with hup | huri
            · rw [hb] at hup
              cases hup
            · simp [huri, hsendtr]
    | found =>
        cases hb : cfg.uploadMetadataJson with
        | true => simp [hsendtr]
        | false =>
            rcases hpath with hup | huri
            · rw [hb] at hup
              cases hup
            · simp [huri, hsendtr]
  refine ⟨?_, ?_, ?_, ?_⟩
  · rw [htrace]
    cases cfg.uploadMetadataJson <;> rfl
  · rw [htrace]
    cases cfg.uploadMetadataJson <;> rfl
  · rintro s rfl
    have hc : classifyMetadataError (some s) =
        if jsIncludes s "ProgrammableNonFungible" = true then
          MetaErrorReport.nftMismatch
        else MetaErrorReport.generic := rfl
    rw [hc]
    by_cases h : jsIncludes s "ProgrammableNonFungible" = true
    · rw [if_pos h]
      exact ⟨fun _ => h, fun _ => rfl⟩
    · rw [if_neg h]
      exact ⟨fun hg => absurd hg (by decide), fun hj => absurd hj h⟩
  · rintro rfl
    rfl

/-- Witness for C7: a send failure whose message is exactly the NFT-conflict
marker yields the distinguished report, with one submission. -/
theorem splMetadataRun_error_classification_witness :
    (splMetadataRun
        ⟨"5SY3Rna38Ay1SAQvswinezjdaeGv576LAfTv9Vo7dcft", true, ""⟩
        ⟨GetAccountOutcome.found,
         SendOutcome.err (some "ProgrammableNonFungible")⟩).getLast? =
      some (MetaEvent.reportError
        (classifyMetadataError (some "ProgrammableNonFungible"))) ∧
    (splMetadataRun
        ⟨"5SY3Rna38Ay1SAQvswinezjdaeGv576LAfTv9Vo7dcft", true, ""⟩
        ⟨GetAccountOutcome.found,
         SendOutcome.err (some "ProgrammableNonFungible")⟩).countP
      (fun e => e.isSend) = 1 ∧
    (∀ s, some "ProgrammableNonFungible" = some s →
      (classifyMetadataError (some "ProgrammableNonFungible") =
          MetaErrorReport.nftMismatch ↔
        jsIncludes s "ProgrammableNonFungible" = true)) ∧
    (some "ProgrammableNonFungible" = (none : Option String) →
      classifyMetadataError (some "ProgrammableNonFungible") =
        MetaErrorReport.generic) :=
  splMetadataRun_error_classification
    ⟨"5SY3Rna38Ay1SAQvswinezjdaeGv576LAfTv9Vo7dcft", true, ""⟩
    ⟨GetAccountOutcome.found, SendOutcome.err (some "ProgrammableNonFungible")⟩
    (some "ProgrammableNonFungible")
    (by decide) (by decide) (Or.inl rfl) rfl

/-! ## Keypairs and run randomness

The SDK's `Keypair.generate()` draws a fresh random keypair.  The randomness of
a run is made explicit as a seed parameter; the public key is determined
injectively by the random seed and the secret key is the 64-byte expansion of
the seed (an ed25519 keypair is a function of its random seed bytes). -/

/-- A wallet keypair: an opaque public key and the 64 secret-key bytes. -/
structure Keypair where
  publicKey : Pubkey
  secretKey : List Nat
  deriving DecidableEq

/-- Model of the SDK's `Keypair.generate()` at a given randomness seed. -/
def Keypair.generate (seed : Nat) : Keypair :=
  { publicKey := seed,
    secretKey := (List.range 64).map fun i => seed / 256 ^ i % 256 }

/-! ## Fee-aware transfer recipient (`spl_transfer.ts`, lines 209-211)

`const mint = new PublicKey("75qoQ7wo4Zax7EvZ3mGj9toiAL9HDNkuEDfRmF19T9tA");`
is an operator-edited literal, but
`const to = Keypair.generate().publicKey; // random test recipient`
draws a fresh random recipient on every run. -/

/-- The transfer script's hard-coded mint literal, as an opaque token. -/
def splTransferMint : Pubkey := 75

/-- The transfer script's recipient: the public key of a freshly generated
keypair, as a function of the run's randomness. -/
def splTransferRecipient (seed : Nat) : Pubkey :=
  (Keypair.generate seed).publicKey

/-- C6 counterexample: The recipient is not deterministic across runs:
two runs whose randomness differs (seeds 0 and 1) use different recipient
addresses, refuting "every two runs of the script use the same recipient
address". -/
theorem splTransferRecipient_varies :
    splTransferRecipient 0 ≠ splTransferRecipient 1 := by decide

/-- C6 amended: The recipient of the Fee-Aware Transfer is freshly
generated by `Keypair.generate()` on each run, so runs with distinct randomness
use distinct recipient addresses; the mint address, by contrast, is the same
hard-coded literal on every run. -/
theorem splTransferRecipient_fresh (s1 s2 : Nat) (h : s1 ≠ s2) :
    splTransferRecipient s1 ≠ splTransferRecipient s2 := by
  exact h

/-- Witness for the amended C6 at seeds 2 and 5. -/
theorem splTransferRecipient_fresh_witness :
    splTransferRecipient 2 ≠ splTransferRecipient 5 :=
  splTransferRecipient_fresh 2 5 (by decide)

/-! ## Token minter (`spl_mint.ts`)

From `src/solana-starter/ts/README.md`, lines 118-209: derive the associated
token account, query it, create it in its own transaction when absent, then
mint `BigInt(AMOUNT_TO_MINT) * BigInt(10 ** DECIMALS)` units. -/

/-- Source: `const AMOUNT_TO_MINT = 1_000_000_000; // 1 billion tokens` -/
def AMOUNT_TO_MINT : Nat := 1000000000

/-- Modelled from the spec: `getAssociatedTokenAddressSync` of the token SDK —
the holding-account address is derived deterministically from the owner key,
the mint and the program ids; modelled as an injective pairing of those
inputs. -/
def getAssociatedTokenAddressSync (mint owner tokenProgram ataProgram : Pubkey) :
    Pubkey :=
  Nat.pair (Nat.pair mint owner) (Nat.pair tokenProgram ataProgram)

/-- The network operations of a minter run, in the order they are awaited.
Each `send...` constructor is one separately submitted transaction. -/
inductive MintEvent where
  | getAccountInfo (addr : Pubkey)
  | sendCreateAtaTransaction (payer ata owner mint : Pubkey)
  | sendMintTo (mint ata authority : Pubkey) (amount : Nat)
  deriving DecidableEq

/-- Is this event the account-creation transaction? -/
def MintEvent.isCreateAta : MintEvent → Bool
  | .sendCreateAtaTransaction _ _ _ _ => true
  | _ => false

/-- Is this event the mint-increase transaction? -/
def MintEvent.isMintTo : MintEvent → Bool
  | .sendMintTo _ _ _ _ => true
  | _ => false

/-- The minter's trace as a function of the wallet key, the mint, and whether
the remote node reports the derived holding account as existing
(`getAccountInfo` returning non-null). -/
def splMintRun (walletPk mint : Pubkey) (ataFound : Bool) : List MintEvent :=
  let ata := getAssociatedTokenAddressSync mint walletPk
    TOKEN_2022_PROGRAM_ID ASSOCIATED_TOKEN_PROGRAM_ID
  [MintEvent.getAccountInfo ata] ++
    (if ataFound then []
     else [MintEvent.sendCreateAtaTransaction walletPk ata walletPk mint]) ++
    [MintEvent.sendMintTo mint ata walletPk (AMOUNT_TO_MINT * 10 ^ DECIMALS)]

/-- C5: When the node reports the derived holding account as existing, the
minter submits no creation transaction and exactly one mint-increase whose
amount is `AMOUNT_TO_MINT * 10^DECIMALS`; when it is absent, the trace is the
query, then a separate creation transaction, then the mint-increase — creation
strictly precedes minting. -/
theorem splMintRun_resumable (walletPk mint : Pubkey) :
    (splMintRun walletPk mint true =
        [MintEvent.getAccountInfo
          (getAssociatedTokenAddressSync mint walletPk
            TOKEN_2022_PROGRAM_ID ASSOCIATED_TOKEN_PROGRAM_ID),
         MintEvent.sendMintTo mint
          (getAssociatedTokenAddressSync mint walletPk
            TOKEN_2022_PROGRAM_ID ASSOCIATED_TOKEN_PROGRAM_ID)
          walletPk (AMOUNT_TO_MINT * 10 ^ DECIMALS)] ∧
      ∀ e ∈ splMintRun walletPk mint true, e.isCreateAta = false) ∧
    (splMintRun walletPk mint false =
        [MintEvent.getAccountInfo
          (getAssociatedTokenAddressSync mint walletPk
            TOKEN_2022_PROGRAM_ID ASSOCIATED_TOKEN_PROGRAM_ID),
         MintEvent.sendCreateAtaTransaction walletPk
          (getAssociatedTokenAddressSync mint walletPk
            TOKEN_2022_PROGRAM_ID ASSOCIATED_TOKEN_PROGRAM_ID)
          walletPk mint,
         MintEvent.sendMintTo mint
          (getAssociatedTokenAddressSync mint walletPk
            TOKEN_2022_PROGRAM_ID ASSOCIATED_TOKEN_PROGRAM_ID)
          walletPk (AMOUNT_TO_MINT * 10 ^ DECIMALS)] ∧
      ∀ i j : Fin (splMintRun walletPk mint false).length,
        ((splMintRun walletPk mint false).get i).isCreateAta →
        ((splMintRun walletPk mint false).get j).isMintTo →
        (i : Nat) < (j : Nat)) := by
  refine ⟨⟨rfl, ?_⟩, rfl, ?_⟩
  · intro e he
    simp only [splMintRun, if_pos, List.mem_append, List.mem_singleton,
      List.mem_cons, List.not_mem_nil, or_false] at he
    rcases he with h | h <;> subst h <;> rfl
  · intro i j hi hj
    fin_cases i <;> fin_cases j <;>
      simp_all [splMintRun, MintEvent.isCreateAta, MintEvent.isMintTo]

/-- Witness for C5 at concrete wallet and mint keys: the existing-account run
skips creation, and in the absent-account run creation precedes minting. -/
theorem splMintRun_resumable_witness :
    splMintRun 3 4 true =
      [MintEvent.getAccountInfo
        (getAssociatedTokenAddressSync 4 3
          TOKEN_2022_PROGRAM_ID ASSOCIATED_TOKEN_PROGRAM_ID),
       MintEvent.sendMintTo 4
        (getAssociatedTokenAddressSync 4 3
          TOKEN_2022_PROGRAM_ID ASSOCIATED_TOKEN_PROGRAM_ID)
        3 (AMOUNT_TO_MINT * 10 ^ DECIMALS)] ∧
    ∀ i j : Fin (splMintRun 3 4 false).length,
      ((splMintRun 3 4 false).get i).isCreateAta →
      ((splMintRun 3 4 false).get j).isMintTo →
      (i : Nat) < (j : Nat) :=
  ⟨(splMintRun_resumable 3 4).1.1, (splMintRun_resumable 3 4).2.2⟩

/-! ## Key generator (`keygen.ts`, `src/unnamed/part_003`)

Generates a fresh keypair, checks whether the wallet directory exists, creates
it when absent, and unconditionally writes the secret key as a JSON array of
bytes to the fixed relative path `cluster1/wallet/dev-wallet.json`.  The file's
own existence is never checked. -/

/-- Path: `path.join(__dirname, "wallet")` with `__dirname = cluster1`. -/
def walletDir : String := "cluster1/wallet"

/-- Path: `path.join(walletDir, "dev-wallet.json")`. -/
def walletFile : String := "cluster1/wallet/dev-wallet.json"

/-- The filesystem state the generator touches: whether the wallet directory
exists and the wallet file's contents, when present. -/
structure FsState where
  walletDirPresent : Bool
  walletFileContents : Option String
  deriving DecidableEq

/-- The filesystem operations the generator can perform, in order. -/
inductive FsOp where
  | checkDirectory (p : String)
  | makeDirectory (p : String)
  | writeFile (p : String) (contents : String)
  deriving DecidableEq

/-- Serialization `JSON.stringify(Array.from(kp.secretKey))`: the JSON array of the
secret-key bytes. -/
def jsonByteArray (bytes : List Nat) : String :=
  "[" ++ String.intercalate "," (bytes.map toString) ++ "]"

/-- The generator's run: final filesystem state and the ordered operations it
performed, as a function of the initial state and the run's randomness. -/
def keygenRun (st : FsState) (seed : Nat) : FsState × List FsOp :=
  let kp := Keypair.generate seed
  let serialized := jsonByteArray kp.secretKey
  ({ walletDirPresent := true, walletFileContents := some serialized },
   [FsOp.checkDirectory walletDir] ++
     (if st.walletDirPresent then [] else [FsOp.makeDirectory walletDir]) ++
     [FsOp.writeFile walletFile serialized])

/-- C8: Every generator run serializes the freshly generated keypair's
secret key as a JSON byte array to the fixed path
`cluster1/wallet/dev-wallet.json`, and performs the directory creation exactly
when the wallet directory was absent. -/
theorem keygenRun_serializes (st : FsState) (seed : Nat) :
    FsOp.writeFile walletFile (jsonByteArray (Keypair.generate seed).secretKey)
        ∈ (keygenRun st seed).2 ∧
      (keygenRun st seed).1.walletFileContents =
        some (jsonByteArray (Keypair.generate seed).secretKey) ∧
      (FsOp.makeDirectory walletDir ∈ (keygenRun st seed).2 ↔
        st.walletDirPresent = false) := by
  refine ⟨?_, rfl, ?_⟩
  · unfold keygenRun
    cases st.walletDirPresent <;> simp
  · unfold keygenRun
    cases hd : st.walletDirPresent <;> simp

/-- Witness for C8 on an initially empty filesystem at seed 1: the secret key
is serialized to the fixed path and the directory is created. -/
theorem keygenRun_serializes_witness :
    FsOp.writeFile walletFile (jsonByteArray (Keypair.generate 1).secretKey)
        ∈ (keygenRun ⟨false, none⟩ 1).2 ∧
      (keygenRun ⟨false, none⟩ 1).1.walletFileContents =
        some (jsonByteArray (Keypair.generate 1).secretKey) ∧
      (FsOp.makeDirectory walletDir ∈ (keygenRun ⟨false, none⟩ 1).2 ↔
        (⟨false, none⟩ : FsState).walletDirPresent = false) :=
  keygenRun_serializes ⟨false, none⟩ 1

/-- C10: The generator checks only the directory's existence, never the
file's, and writes unconditionally: when a wallet file from a previous run is
already present, its contents are replaced by the new key's serialization
regardless of what they were. -/
theorem keygenRun_overwrites (st : FsState) (seed : Nat) (old : String)
    (_hprev : st.walletFileContents = some old) :
    (keygenRun st seed).1.walletFileContents =
        some (jsonByteArray (Keypair.generate seed).secretKey) ∧
      (∀ p, FsOp.checkDirectory p ∈ (keygenRun st seed).2 → p = walletDir) ∧
      FsOp.writeFile walletFile (jsonByteArray (Keypair.generate seed).secretKey)
        ∈ (keygenRun st seed).2 := by
  refine ⟨rfl, ?_, ?_⟩
  · intro p hp
    unfold keygenRun at hp
    cases st.walletDirPresent <;> simp_all
  · unfold keygenRun
    cases st.walletDirPresent <;> simp

/-- Witness for C10: a state whose wallet file already holds an old key is
overwritten by the run at seed 0. -/
theorem keygenRun_overwrites_witness :
    (keygenRun ⟨true, some "[7]"⟩ 0).1.walletFileContents =
        some (jsonByteArray (Keypair.generate 0).secretKey) ∧
      (∀ p, FsOp.checkDirectory p ∈ (keygenRun ⟨true, some "[7]"⟩ 0).2 →
        p = walletDir) ∧
      FsOp.writeFile walletFile (jsonByteArray (Keypair.generate 0).secretKey)
        ∈ (keygenRun ⟨true, some "[7]"⟩ 0).2 :=
  keygenRun_overwrites ⟨true, some "[7]"⟩ 0 "[7]" rfl

end Turbine
